import Mathlib

/-!
Verification of the resumable streaming search protocol of the deepdriver
repository (client side).

The definitions below are a shallow embedding of the TypeScript client code:

* `frontend/osintdigger/src/components/DeepSearch/utils/sseClient.ts`
  (connection-level reconnect / fallback state machine,
  `registerSession`, `createSSEConnection`, `fallbackToRegularRequest`);
* the `useDeepSearch` hook (message dispatch `handleSSEMessage`,
  `startDeepSearch`, `handleFallbackToRegularRequest`);
* the legacy `DeepSearch` component (its `eventSource.onmessage` result
  branch and its `fallbackToRegularRequest` merge);
* the `SSE_CONFIG` / timing constants of the DeepSearch constants module.

JavaScript `Set<string>` values are modelled as duplicate-free `List String`
built with `setAdd`; React state plus the mutable refs of a hook instance are
modelled as one record (`HookState` / `ComponentState`); side effects
(closing the EventSource, clearing timers, issuing HTTP requests, opening a
new SSE connection) are reified as a `ClientEffect` list.  `Date.now()` is
passed in as an explicit `ts : Nat` parameter where the code reads the clock.
-/

namespace DeepDriver

/-- One classification result, from the `SearchResult` interface of the
DeepSearch types module (`risk_item`, `relationship_type`,
`finding_summary`).  Optional display fields that no control flow reads are
omitted. -/
structure SearchResult where
  risk_item : String
  relationship_type : String
  finding_summary : String
deriving Repr, DecidableEq

/-- A parsed SSE message, from the `SSEMessage` interface of the DeepSearch
types module.  Every field except `type` is optional there; `none` models an
absent (`undefined`) field. -/
structure SSEMessage where
  type : String
  total : Option Nat := none
  progress : Option Nat := none
  result : Option SearchResult := none
  message : Option String := none
  reconnect : Option Bool := none
  processedItems : Option (List String) := none
  sessionId : Option String := none
  institutionA : Option String := none
  current_batch : Option Nat := none
  total_batches : Option Nat := none
deriving Repr, DecidableEq

/-- Reified side effects of the client code: timer manipulation, connection
teardown, notifications delivered to the message callback, and outgoing
HTTP / SSE requests. -/
inductive ClientEffect where
  | notifyClient (msgType : String)
  | emitToClient (msg : SSEMessage)
  | closeEventSource
  | runCleanup
  | clearConnectionTimeout
  | clearHeartbeatTimeout
  | clearReconnectTimeout
  | clearActivityInterval
  | scheduleReconnectStart
  | onFallback (institution : String)
  | fallbackRequest (institution : String) (sessionId : String)
      (processed : List String)
  | registerSessionRequest (institution : String) (sessionId : String)
      (processed : List String)
  | connectSSE (institution : String) (sessionId : String)
      (processed : List String) (progressHint : Nat)
deriving Repr, DecidableEq

/-- JavaScript `String.prototype.trim`: strip leading and trailing
whitespace.  (Defined over the character list so that it reduces inside the
kernel; the characters JS strings carry here are ASCII.) -/
def jsTrim (s : String) : String :=
  ⟨((s.data.dropWhile Char.isWhitespace).reverse.dropWhile Char.isWhitespace).reverse⟩

/-- JavaScript `Set.add` on a duplicate-free list: appends the element only
when it is not already present. -/
def setAdd (s : List String) (x : String) : List String :=
  if s.contains x then s else s ++ [x]

/-- JavaScript `new Set(array)`: deduplicates a list, keeping first
occurrences in order. -/
def dedupList (l : List String) : List String :=
  l.foldl setAdd []

/-- The synthetic placeholder id `virtual_item_<i>_<Date.now()>` that the
heartbeat reconciliation of `useDeepSearch.handleSSEMessage` inserts when a
heartbeat carries only a progress count. -/
def virtualItemId (i ts : Nat) : String :=
  "virtual_item_" ++ toString i ++ "_" ++ toString ts

/-- The virtual-item fill loop of the heartbeat branch: for each index `i`
from the captured current size up to (excluding) `target`, add
`virtualItemId i ts` to the processed set. -/
def fillVirtual (s : List String) (target ts : Nat) : List String :=
  (List.range' s.length (target - s.length)).foldl
    (fun acc i => setAdd acc (virtualItemId i ts)) s

/-- `SSE_CONFIG.CONNECTION_TIMEOUT` from the DeepSearch constants module. -/
def CONNECTION_TIMEOUT : Nat := 240000

/-- `SSE_CONFIG.HEARTBEAT_TIMEOUT` from the DeepSearch constants module. -/
def HEARTBEAT_TIMEOUT : Nat := 60000

/-- `SSE_CONFIG.MAX_RECONNECT_ATTEMPTS` from the DeepSearch constants
module. -/
def MAX_RECONNECT_ATTEMPTS : Nat := 5

/-- `SSE_CONFIG.ACTIVITY_CHECK_INTERVAL` from the DeepSearch constants
module. -/
def ACTIVITY_CHECK_INTERVAL : Nat := 10000

/-- The proactive-reconnect timer delay hardcoded in `createSSEConnection`
(4 minutes 45 seconds). -/
def RECONNECT_INTERVAL : Nat := 285000

/-- The platform connection-duration ceiling named next to
`RECONNECT_INTERVAL` in `createSSEConnection`: the Railway platform drops
connections after 5 minutes (300 seconds). -/
def RAILWAY_CONNECTION_LIMIT_SECONDS : Nat := 300

/-- The client-side state of one `useDeepSearch` hook instance: its React
state (`institutionA`, `isSearching`, `progress`, `totalItems`, `results`,
`showNoEvidence`, `sessionId`, `error`) together with its mutable refs
(`institutionARef`, `processedItemsRef` as `processed`,
`reconnectCountRef` as `reconnectCount`, `isFallbackInProgressRef`) and the
`window.__deepSearchProgress` globals.  Pure display state
(`estimatedTimeRemaining`, processing-time samples, batch info) is omitted:
no control flow of the verified claims reads it. -/
structure HookState where
  institutionA : String
  institutionARef : String
  isSearching : Bool
  progress : Nat
  totalItems : Nat
  results : List SearchResult
  showNoEvidence : Bool
  sessionId : String
  error : String
  processed : List String
  reconnectCount : Nat
  isFallbackInProgress : Bool
  globalProgress : Nat
  globalTotal : Nat
deriving Repr, DecidableEq

/-- The count-only heartbeat reconciliation of
`useDeepSearch.handleSSEMessage` (the branch taken when the heartbeat has
`progress`/`total` but no `processedItems` list).  The caller has already
stored `progress := p` and `totalItems := t`.  Mirrors the source exactly:
update the global progress variable; if the local processed size is below
the server progress, fill with virtual ids and set progress again; then, if
the sizes still disagree, either treat it as a backend restart (progress
below 5 while more than 20 items are held locally: display the sum), or
force-sync the processed set to fresh virtual ids, or — when the local size
exceeds the server progress — only log, leaving the progress state at the
server value written on entry. -/
def hookHeartbeatCountOnly (st : HookState) (p t ts : Nat) : HookState :=
  let st1 := { st with globalProgress := p, globalTotal := t }
  let st2 :=
    if st1.processed.length < p then
      { st1 with processed := fillVirtual st1.processed p ts, progress := p }
    else st1
  if st2.processed.length ≠ p then
    if p < 5 ∧ st2.processed.length > 20 then
      { st2 with progress := st2.processed.length + p,
                 globalProgress := st2.processed.length + p,
                 globalTotal := t }
    else if st2.processed.length < p then
      { st2 with
          processed := dedupList ((List.range p).map (fun i => virtualItemId i ts)),
          progress := p }
    else st2
  else st2

/-- The `heartbeat` branch of `useDeepSearch.handleSSEMessage`: when both
`progress` and `total` are present, store them; if the heartbeat carries a
non-empty `processedItems` list, replace the local processed set with it,
otherwise run the count-only reconciliation. -/
def hookHeartbeat (st : HookState) (msg : SSEMessage) (ts : Nat) : HookState :=
  match msg.progress, msg.total with
  | some p, some t =>
    let st1 := { st with progress := p, totalItems := t }
    match msg.processedItems with
    | some l =>
      if l.length > 0 then { st1 with processed := dedupList l }
      else hookHeartbeatCountOnly st1 p t ts
    | none => hookHeartbeatCountOnly st1 p t ts
  | _, _ => st

/-- The `reconnect_warning` branch of `useDeepSearch.handleSSEMessage`.
When the message carries `reconnect = true` the hook closes the current
EventSource and runs the stored cleanup function, bumps the reconnect
counter, adopts a non-empty `sessionId` from the message, resolves the
target institution (message field, then the ref, then the state), and
schedules `startDeepSearch(true)` via `setTimeout`; with no resolvable
institution it stops after the teardown.  Without the `reconnect` flag the
message is informational only. -/
def hookReconnectWarning (st : HookState) (msg : SSEMessage) :
    HookState × List ClientEffect :=
  if msg.reconnect = some true then
    let st1 := { st with reconnectCount := st.reconnectCount + 1 }
    let st2 :=
      match msg.sessionId with
      | some s => if s ≠ "" then { st1 with sessionId := s } else st1
      | none => st1
    let inst := match msg.institutionA with | some a => a | none => ""
    if inst ≠ "" then
      ({ st2 with institutionA := inst, institutionARef := inst },
       [ClientEffect.closeEventSource, ClientEffect.runCleanup,
        ClientEffect.scheduleReconnectStart])
    else if st2.institutionARef ≠ "" ∧ jsTrim st2.institutionARef ≠ "" then
      ({ st2 with institutionA := st2.institutionARef },
       [ClientEffect.closeEventSource, ClientEffect.runCleanup,
        ClientEffect.scheduleReconnectStart])
    else if st2.institutionA ≠ "" ∧ jsTrim st2.institutionA ≠ "" then
      ({ st2 with institutionARef := st2.institutionA },
       [ClientEffect.closeEventSource, ClientEffect.runCleanup,
        ClientEffect.scheduleReconnectStart])
    else
      (st2, [ClientEffect.closeEventSource, ClientEffect.runCleanup])
  else (st, [])

/-- `useDeepSearch.handleSSEMessage`: dispatch on the message `type` string,
in source order (`init`, `batch_info`, `reconnect_warning`, `heartbeat`,
`result`, `complete`, `error`; other types fall through unchanged).  Note
that the `result` branch appends the result and records its `risk_item`
without any duplicate check — the membership test exists only in the legacy
component handler `componentOnMessageResult` below. -/
def handleSSEMessage (st : HookState) (msg : SSEMessage) (ts : Nat) :
    HookState × List ClientEffect :=
  if msg.type = "init" then
    ({ st with totalItems := msg.total.getD 0 }, [])
  else if msg.type = "batch_info" then
    (st, [])
  else if msg.type = "reconnect_warning" then
    hookReconnectWarning st msg
  else if msg.type = "heartbeat" then
    (hookHeartbeat st msg ts, [])
  else if msg.type = "result" then
    match msg.result with
    | some r =>
      ({ st with results := st.results ++ [r],
                 processed := setAdd st.processed r.risk_item }, [])
    | none => (st, [])
  else if msg.type = "complete" then
    ({ st with isSearching := false, showNoEvidence := false,
               reconnectCount := 0 },
     [ClientEffect.closeEventSource, ClientEffect.runCleanup])
  else if msg.type = "error" then
    ({ st with
        error :=
          (match msg.message with
           | some m => if m ≠ "" then m else "An error occurred during search"
           | none => "An error occurred during search"),
        isSearching := false },
     [ClientEffect.closeEventSource, ClientEffect.runCleanup])
  else (st, [])

/-- Outcome of the resume-time `POST /api/register_session` round trip made
by `startDeepSearch` on a reconnect: the request failed (network error or
non-2xx status, both land in the same `catch`), or it succeeded with an
optional `session_id` field in the response body. -/
inductive RegisterResult where
  | failed
  | ok (returnedSessionId : Option String)
deriving Repr, DecidableEq

/-- `useDeepSearch.startDeepSearch`.  Resolves the target institution
(preferring the ref on a reconnect), refuses to double-start a running
search, resets all progress state only on a fresh start, on a reconnect
re-registers the session (adopting a returned session id only when it is
non-empty and different), and finally — when the backend health check
succeeds — opens the SSE connection.  The `sessionId` that the connection
and the registration use is the value captured at entry (the React closure
value), so a `setSessionId` performed inside this call does not affect the
connection being opened.  `healthOk` models the `/api/health` probe and
`ts` models `Date.now()`. -/
def startDeepSearch (st0 : HookState) (isReconnect : Bool)
    (reg : RegisterResult) (healthOk : Bool) (ts : Nat) :
    HookState × List ClientEffect :=
  let sid0 := st0.sessionId
  let tgtChoice : Option (HookState × String) :=
    if isReconnect = true ∧ st0.institutionARef ≠ "" ∧ jsTrim st0.institutionARef ≠ "" then
      some ({ st0 with institutionA := st0.institutionARef }, st0.institutionARef)
    else if st0.institutionA ≠ "" ∧ jsTrim st0.institutionA ≠ "" then
      some ({ st0 with institutionARef := st0.institutionA }, st0.institutionA)
    else none
  match tgtChoice with
  | none => ({ st0 with error := "Please enter a target institution name" }, [])
  | some (st1, target) =>
    if st1.isSearching = true ∧ isReconnect = false then (st1, [])
    else
      let st2 :=
        if isReconnect = false then
          { st1 with error := "", results := [], progress := 0, totalItems := 0,
                     isSearching := true, showNoEvidence := true,
                     sessionId := "session_" ++ toString ts,
                     processed := [], reconnectCount := 0 }
        else st1
      let regPair : HookState × List ClientEffect :=
        if isReconnect = true then
          let regEff :=
            [ClientEffect.registerSessionRequest target sid0 st2.processed]
          match reg with
          | RegisterResult.ok (some newSid) =>
            (if newSid ≠ "" ∧ newSid ≠ sid0 then { st2 with sessionId := newSid }
             else st2, regEff)
          | RegisterResult.ok none => (st2, regEff)
          | RegisterResult.failed => (st2, regEff)
        else (st2, [])
      if healthOk = true then
        (regPair.1,
         regPair.2 ++
           [ClientEffect.connectSSE target sid0 regPair.1.processed
              regPair.1.processed.length])
      else
        ({ regPair.1 with error := "SSE connection setup failed",
                          isSearching := false }, regPair.2)

/-- The body of the `setTimeout` scheduled by the `reconnect_warning`
branch: bail out when the institution ref is blank, otherwise sync the state
from the ref and call `startDeepSearch(true)`. -/
def scheduledReconnectTask (st : HookState) (reg : RegisterResult)
    (healthOk : Bool) (ts : Nat) : HookState × List ClientEffect :=
  if st.institutionARef = "" ∨ jsTrim st.institutionARef = "" then (st, [])
  else
    startDeepSearch { st with institutionA := st.institutionARef } true reg
      healthOk ts

/-- Delivery of one `reconnect_warning` message followed by the event loop
running the reconnect task it scheduled (if any): the composition the code
performs across `handleSSEMessage` and the nested `setTimeout`s. -/
def reconnectWarningStep (st : HookState) (msg : SSEMessage)
    (reg : RegisterResult) (healthOk : Bool) (ts : Nat) :
    HookState × List ClientEffect :=
  let p := handleSSEMessage st msg ts
  if p.2.contains ClientEffect.scheduleReconnectStart then
    let q := scheduledReconnectTask p.1 reg healthOk ts
    (q.1, p.2 ++ q.2)
  else p

/-- `useDeepSearch.handleFallbackToRegularRequest` entry: a second
invocation while `isFallbackInProgressRef` is set returns immediately;
otherwise the flag is set and the single fallback HTTP request is issued
with the current session id and processed set. -/
def handleFallbackToRegularRequest (st : HookState) (target : String) :
    HookState × List ClientEffect :=
  if st.isFallbackInProgress = true then (st, [])
  else
    ({ st with isFallbackInProgress := true },
     [ClientEffect.fallbackRequest target st.sessionId st.processed])

/-- The success callback the hook passes to the fallback request: append all
returned results (no duplicate filtering), overwrite progress and total from
the response, add the returned ids to the processed set, stop searching,
hide no-evidence results, and clear the in-flight flag. -/
def hookFallbackOnSuccess (st : HookState) (newResults : List SearchResult)
    (processedCount total : Nat) : HookState :=
  { st with results := st.results ++ newResults,
            progress := processedCount,
            totalItems := total,
            processed := newResults.foldl (fun s r => setAdd s r.risk_item) st.processed,
            isSearching := false,
            showNoEvidence := false,
            isFallbackInProgress := false }

/-- The error callback the hook passes to the fallback request:
`showErrorAndReset` (store the error, stop searching, close the connection
and run cleanup) and clear the in-flight flag. -/
def hookFallbackOnError (st : HookState) : HookState × List ClientEffect :=
  ({ st with error := "Connection to server failed. Please try again later.",
             isSearching := false,
             isFallbackInProgress := false },
   [ClientEffect.closeEventSource, ClientEffect.runCleanup])

/-- Connection-local mutable state of one `createSSEConnection` call:
`reconnectAttempts` and `lastActivityTime`. -/
structure ConnState where
  reconnectAttempts : Nat
  lastActivityTime : Nat
deriving Repr, DecidableEq

/-- The effective retry ceiling computed by `eventSource.onerror`: two extra
attempts are granted when the last activity was under 5 seconds ago. -/
def effectiveMaxRetries (st : ConnState) (now : Nat) : Nat :=
  if now - st.lastActivityTime < 5000 then MAX_RECONNECT_ATTEMPTS + 2
  else MAX_RECONNECT_ATTEMPTS

/-- One tick of the activity-checker interval of `createSSEConnection`: when
the connection has been inactive longer than `HEARTBEAT_TIMEOUT`, either
(below the retry ceiling) bump the attempt counter, notify the client and
reset the activity clock, or (at or above the ceiling) stop the checker,
close the connection and fall back to HTTP. -/
def activityCheckTick (institutionA : String) (st : ConnState) (now : Nat) :
    ConnState × List ClientEffect :=
  let inactiveTime := now - st.lastActivityTime
  if inactiveTime > HEARTBEAT_TIMEOUT then
    if st.reconnectAttempts < MAX_RECONNECT_ATTEMPTS then
      ({ st with reconnectAttempts := st.reconnectAttempts + 1,
                 lastActivityTime := now },
       [ClientEffect.notifyClient "connection_warning"])
    else
      (st, [ClientEffect.clearActivityInterval, ClientEffect.closeEventSource,
            ClientEffect.onFallback institutionA])
  else (st, [])

/-- `eventSource.onerror` of `createSSEConnection`: below the effective
retry ceiling, bump the attempt counter (notifying the client on the first
error) and let the browser retry; at or above it, clear the timers, close
the connection and fall back to HTTP. -/
def sseOnError (institutionA : String) (st : ConnState) (now : Nat) :
    ConnState × List ClientEffect :=
  if st.reconnectAttempts < effectiveMaxRetries st now then
    ({ st with reconnectAttempts := st.reconnectAttempts + 1 },
     if st.reconnectAttempts + 1 = 1 then
       [ClientEffect.notifyClient "connection_warning"]
     else [])
  else
    (st, [ClientEffect.clearConnectionTimeout, ClientEffect.clearHeartbeatTimeout,
          ClientEffect.closeEventSource, ClientEffect.onFallback institutionA])

/-- The `cleanup` function returned by `createSSEConnection`: clear every
timer (connection timeout, heartbeat timeout, proactive-reconnect timeout,
activity-checker interval) and close the EventSource. -/
def sseCleanupEffects : List ClientEffect :=
  [ClientEffect.clearConnectionTimeout, ClientEffect.clearHeartbeatTimeout,
   ClientEffect.clearReconnectTimeout, ClientEffect.clearActivityInterval,
   ClientEffect.closeEventSource]

/-- The `reconnect_warning` payload built by the `reconnect` function of
`createSSEConnection`: it carries the planned-reconnect flag, the
connection's processed-item snapshot, its session id and its target
institution. -/
def reconnectWarningMessage (institutionA sessionId : String)
    (processedItems : List String) : SSEMessage :=
  { type := "reconnect_warning",
    message := some "Connection approaching time limit, reconnecting...",
    reconnect := some true,
    processedItems := some processedItems,
    sessionId := some sessionId,
    institutionA := some institutionA }

/-- The `reconnect` function of `createSSEConnection`: with a blank target
institution it returns without doing anything; otherwise it closes the old
connection, clears the three timeouts, runs `cleanup`, and hands the
stateful `reconnect_warning` payload to the message callback so the hook
creates the new connection. -/
def sseReconnect (institutionA sessionId : String)
    (processedItems : List String) : List ClientEffect :=
  if institutionA = "" ∨ jsTrim institutionA = "" then []
  else
    [ClientEffect.closeEventSource, ClientEffect.clearConnectionTimeout,
     ClientEffect.clearHeartbeatTimeout, ClientEffect.clearReconnectTimeout,
     ClientEffect.runCleanup,
     ClientEffect.emitToClient
       (reconnectWarningMessage institutionA sessionId processedItems)]

/-- The callback of the proactive-reconnect timer in `createSSEConnection`
(armed with delay `RECONNECT_INTERVAL`): notify the client with a plain
`reconnect_warning`, close the connection, clear the timers, then run
`reconnect`. -/
def proactiveReconnectFire (institutionA sessionId : String)
    (processedItems : List String) : List ClientEffect :=
  ClientEffect.emitToClient
      { type := "reconnect_warning",
        message := some "Connection approaching time limit, reconnecting..." }
    :: ClientEffect.closeEventSource
    :: ClientEffect.clearConnectionTimeout
    :: ClientEffect.clearHeartbeatTimeout
    :: ClientEffect.clearReconnectTimeout
    :: sseReconnect institutionA sessionId processedItems

/-- The argument validation at the top of `createSSEConnection`: a missing
or whitespace-only `institutionA` throws `institutionA is required`, an
empty `apiBaseUrl` throws `apiBaseUrl is required`; both checks run before
the EventSource is constructed. -/
def createSSEConnectionCheck (institutionA apiBaseUrl : String) :
    Except String Unit :=
  if institutionA = "" ∨ jsTrim institutionA = "" then
    Except.error "institutionA is required"
  else if apiBaseUrl = "" then
    Except.error "apiBaseUrl is required"
  else Except.ok ()

/-- Outcome of the `registerSession` fetch in `sseClient.ts`: a network
error, or an HTTP response with its `ok` flag and the optional `session_id`
field of the body. -/
inductive HttpOutcome where
  | netError
  | response (ok : Bool) (sessionIdField : Option String)
deriving Repr, DecidableEq

/-- `registerSession` of `sseClient.ts`, reduced to its session-id result: a
non-ok response raises inside the `try`, and the `catch` returns the
original session id; a network error does the same; on success the returned
`session_id` is used when truthy, else the original id. -/
def registerSession (sessionId : String) (o : HttpOutcome) : String :=
  match o with
  | HttpOutcome.netError => sessionId
  | HttpOutcome.response ok sid =>
    if ok then
      match sid with
      | some s => if s ≠ "" then s else sessionId
      | none => sessionId
    else sessionId

/-- Client state of the legacy `DeepSearch` component (the non-hook
implementation): results, progress, total, the processed-item set, and the
searching / fallback-in-flight flags. -/
structure ComponentState where
  results : List SearchResult
  progress : Nat
  totalItems : Nat
  processed : List String
  isSearching : Bool
  isFallbackInProgress : Bool
deriving Repr, DecidableEq

/-- The `result` branch of the legacy component's `eventSource.onmessage`:
a result whose `risk_item` is already in the processed set is skipped
entirely; otherwise it is appended, progress is incremented and the item is
recorded as processed. -/
def componentOnMessageResult (st : ComponentState) (r : SearchResult) :
    ComponentState :=
  if st.processed.contains r.risk_item then st
  else
    { st with results := st.results ++ [r],
              progress := st.progress + 1,
              processed := setAdd st.processed r.risk_item }

/-- The `if (data.total)` step of the legacy component's fallback response
handling: a truthy (present and non-zero) `total` is stored. -/
def componentApplyTotal (st : ComponentState) (total : Option Nat) :
    ComponentState :=
  match total with
  | some t => if t ≠ 0 then { st with totalItems := t } else st
  | none => st

/-- The result-merge step of the legacy component's fallback response
handling: returned results already in the processed set are filtered out,
and only the remainder is appended, counted into progress and recorded as
processed. -/
def componentMergeNew (st : ComponentState) (rs : List SearchResult) :
    ComponentState :=
  let newResults := rs.filter (fun r => !(st.processed.contains r.risk_item))
  if newResults.length > 0 then
    { st with results := st.results ++ newResults,
              progress := st.progress + newResults.length,
              processed := newResults.foldl (fun s r => setAdd s r.risk_item)
                st.processed }
  else st

/-- The body of one fallback HTTP response of the legacy component:
`componentApplyTotal` followed, when a results array is present, by
`componentMergeNew`. -/
def componentFallbackMerge (st : ComponentState) (total : Option Nat)
    (results : Option (List SearchResult)) : ComponentState :=
  let st1 := componentApplyTotal st total
  match results with
  | some rs => componentMergeNew st1 rs
  | none => st1

/-- A hook state with everything empty / zero, the state of a freshly
mounted `useDeepSearch` instance (modulo the timestamp-based initial session
id, which is irrelevant to the properties proved below). -/
def emptyHookState : HookState :=
  { institutionA := "", institutionARef := "", isSearching := false,
    progress := 0, totalItems := 0, results := [], showNoEvidence := true,
    sessionId := "", error := "", processed := [], reconnectCount := 0,
    isFallbackInProgress := false, globalProgress := 0, globalTotal := 0 }

theorem jsTrim_of_empty (a : String) (h : a = "") : jsTrim a = "" := by
  subst h; rfl

theorem ne_empty_of_jsTrim_ne (a : String) (h : jsTrim a ≠ "") : a ≠ "" :=
  fun he => h (jsTrim_of_empty a he)

theorem setAdd_length_le (s : List String) (x : String) :
    (setAdd s x).length ≤ s.length + 1 := by
  unfold setAdd; split <;> simp

theorem foldl_setAdd_length_le (f : Nat → String) (l : List Nat)
    (s : List String) :
    (l.foldl (fun acc i => setAdd acc (f i)) s).length ≤ s.length + l.length := by
  induction l generalizing s with
  | nil => simp
  | cons x xs ih =>
    simp only [List.foldl_cons, List.length_cons]
    refine le_trans (ih _) ?_
    have := setAdd_length_le s (f x)
    omega

theorem fillVirtual_length_le (s : List String) (p ts : Nat)
    (h : s.length ≤ p) : (fillVirtual s p ts).length ≤ p := by
  unfold fillVirtual
  have hb := foldl_setAdd_length_le (fun i => virtualItemId i ts)
    (List.range' s.length (p - s.length)) s
  simp only [List.length_range'] at hb
  omega

/-- C1.  The claim states that a `Result` event whose `item_id` is already
in the local processed set is discarded with `results` and `processed`
unchanged.  The `result` branch of `useDeepSearch.handleSSEMessage` performs
no such membership test: delivering a result for an already-processed
`risk_item` appends it to `results` a second time, so the item is surfaced
twice.  The legacy component handler `componentOnMessageResult` does perform
the test and discards the duplicate, which together with the spec shows the
hook's missing check is a slip.  This theorem evaluates both handlers at the
failing input. -/
theorem C1_result_event_duplicate_surfaced :
    (handleSSEMessage
        { emptyHookState with
            isSearching := true
            results := [⟨"Univ X", "Direct", "joint lab"⟩]
            processed := ["Univ X"] }
        { type := "result", result := some ⟨"Univ X", "Direct", "joint lab"⟩ }
        0).1.results =
      [⟨"Univ X", "Direct", "joint lab"⟩, ⟨"Univ X", "Direct", "joint lab"⟩] ∧
    (["Univ X"].contains "Univ X") = true ∧
    componentOnMessageResult
        { results := [⟨"Univ X", "Direct", "joint lab"⟩]
          progress := 1
          totalItems := 5
          processed := ["Univ X"]
          isSearching := true
          isFallbackInProgress := false }
        ⟨"Univ X", "Direct", "joint lab"⟩ =
      { results := [⟨"Univ X", "Direct", "joint lab"⟩]
        progress := 1
        totalItems := 5
        processed := ["Univ X"]
        isSearching := true
        isFallbackInProgress := false } := by
  refine ⟨?_, ?_, ?_⟩ <;> decide

/-- C9 counterexample.  The claim asserts that whenever both arguments are
non-empty the error branches of `createSSEConnection` are unreachable, yet a
whitespace-only `institutionA` is a non-empty string and still hits the
`institutionA is required` branch. -/
theorem C9_whitespace_institution_rejected :
    createSSEConnectionCheck " " "http://localhost:5000" =
      Except.error "institutionA is required" ∧
    " " ≠ "" ∧ "http://localhost:5000" ≠ "" := by
  refine ⟨rfl, by decide, by decide⟩

/-- C9 amended.  `createSSEConnection` accepts its arguments exactly when
`institutionA` is non-blank after trimming and `apiBaseUrl` is non-empty;
under that precondition the two error branches (which run before the
EventSource is constructed) are unreachable, and otherwise the call throws
the corresponding required-argument error. -/
theorem C9_createSSEConnection_check_iff (a b : String) :
    createSSEConnectionCheck a b = Except.ok () ↔ (jsTrim a ≠ "" ∧ b ≠ "") := by
  unfold createSSEConnectionCheck
  have hnil : jsTrim "" = "" := rfl
  by_cases h1 : a = "" ∨ jsTrim a = ""
  · rcases h1 with h1 | h1
    · simp [h1, hnil]
    · simp [h1]
  · push_neg at h1
    by_cases h2 : b = "" <;> simp [h1.1, h1.2, h2]

/-- C10.  The hook's fallback path is single-flight: while
`isFallbackInProgressRef` is set, a further invocation returns immediately
with no request issued and no state change; when clear, the invocation sets
the flag and issues exactly one fallback request carrying the current
session id and processed set; both the success and the error callback clear
the flag again so a later fallback can run. -/
theorem C10_fallback_single_flight (st : HookState) (target : String)
    (rs : List SearchResult) (p t : Nat) :
    (st.isFallbackInProgress = true →
       handleFallbackToRegularRequest st target = (st, [])) ∧
    (st.isFallbackInProgress = false →
       (handleFallbackToRegularRequest st target).1.isFallbackInProgress = true ∧
       (handleFallbackToRegularRequest st target).2 =
         [ClientEffect.fallbackRequest target st.sessionId st.processed]) ∧
    (hookFallbackOnSuccess st rs p t).isFallbackInProgress = false ∧
    (hookFallbackOnError st).1.isFallbackInProgress = false := by
  refine ⟨?_, ?_, ?_, ?_⟩
  · intro h; simp [handleFallbackToRegularRequest, h]
  · intro h; simp [handleFallbackToRegularRequest, h]
  · simp [hookFallbackOnSuccess]
  · simp [hookFallbackOnError]

/-- C10 witness: the single-flight behaviour evaluated at a state whose
fallback flag is set. -/
theorem C10_fallback_single_flight_witness :
    handleFallbackToRegularRequest
        { emptyHookState with isFallbackInProgress := true } "Harvard" =
      ({ emptyHookState with isFallbackInProgress := true }, []) ∧
    (hookFallbackOnSuccess
        { emptyHookState with isFallbackInProgress := true } [] 0 0).isFallbackInProgress
      = false :=
  ⟨(C10_fallback_single_flight
      { emptyHookState with isFallbackInProgress := true } "Harvard" [] 0 0).1 rfl,
   (C10_fallback_single_flight
      { emptyHookState with isFallbackInProgress := true } "Harvard" [] 0 0).2.2.1⟩

/-- C8.  On a `complete` message the hook transitions to the closed state:
searching stops, the EventSource is closed and the stored cleanup function
is run (which clears the connection timeout, heartbeat timeout, proactive
reconnect timeout and activity-checker interval), the reconnect counter is
reset to zero, and the accumulated results (and processed set and progress)
are left untouched for the caller. -/
theorem C8_complete_event_closes_stream (st : HookState) (msg : SSEMessage)
    (ts : Nat) (h : msg.type = "complete") :
    (handleSSEMessage st msg ts).1.results = st.results ∧
    (handleSSEMessage st msg ts).1.isSearching = false ∧
    (handleSSEMessage st msg ts).1.reconnectCount = 0 ∧
    (handleSSEMessage st msg ts).1.processed = st.processed ∧
    (handleSSEMessage st msg ts).1.progress = st.progress ∧
    (handleSSEMessage st msg ts).2 =
      [ClientEffect.closeEventSource, ClientEffect.runCleanup] ∧
    ClientEffect.clearConnectionTimeout ∈ sseCleanupEffects ∧
    ClientEffect.clearHeartbeatTimeout ∈ sseCleanupEffects ∧
    ClientEffect.clearReconnectTimeout ∈ sseCleanupEffects ∧
    ClientEffect.clearActivityInterval ∈ sseCleanupEffects := by
  refine ⟨?_, ?_, ?_, ?_, ?_, ?_, ?_, ?_, ?_, ?_⟩ <;>
    simp [handleSSEMessage, h, sseCleanupEffects]

/-- C8 witness: the complete transition evaluated on a mid-search state with
two accumulated results and a non-zero reconnect count. -/
theorem C8_complete_event_closes_stream_witness :
    (handleSSEMessage
        { emptyHookState with
            isSearching := true
            results := [⟨"A", "Direct", "x"⟩, ⟨"B", "Unknown", "y"⟩]
            processed := ["A", "B"]
            progress := 2
            reconnectCount := 3 }
        { type := "complete" } 0).1.results =
      [⟨"A", "Direct", "x"⟩, ⟨"B", "Unknown", "y"⟩] ∧
    (handleSSEMessage
        { emptyHookState with
            isSearching := true
            results := [⟨"A", "Direct", "x"⟩, ⟨"B", "Unknown", "y"⟩]
            processed := ["A", "B"]
            progress := 2
            reconnectCount := 3 }
        { type := "complete" } 0).1.reconnectCount = 0 := by
  refine ⟨(C8_complete_event_closes_stream _ { type := "complete" } 0 rfl).1,
          (C8_complete_event_closes_stream _ { type := "complete" } 0 rfl).2.2.1⟩

/-- C4.  When the proactive-reconnect timer of `createSSEConnection` fires
(it is armed with delay `RECONNECT_INTERVAL` at connection creation, so it
fires exactly when the connection is still open at that age), the callback
delivers a `reconnect_warning` message to the client, closes the
EventSource and clears the timers, and hands over to the `reconnect`
routine — it never invokes the HTTP-fallback or error path.  The threshold
is 285000 ms, strictly below the 300-second Railway connection ceiling. -/
theorem C4_proactive_reconnect_graceful (inst sid : String)
    (pr : List String) (h : jsTrim inst ≠ "") :
    RECONNECT_INTERVAL = 285000 ∧
    RECONNECT_INTERVAL < RAILWAY_CONNECTION_LIMIT_SECONDS * 1000 ∧
    ClientEffect.emitToClient
        { type := "reconnect_warning"
          message := some "Connection approaching time limit, reconnecting..." }
      ∈ proactiveReconnectFire inst sid pr ∧
    ClientEffect.closeEventSource ∈ proactiveReconnectFire inst sid pr ∧
    (∀ i, ClientEffect.onFallback i ∉ proactiveReconnectFire inst sid pr) := by
  have h0 : inst ≠ "" := ne_empty_of_jsTrim_ne inst h
  refine ⟨rfl, by decide, ?_, ?_, ?_⟩ <;>
    simp [proactiveReconnectFire, sseReconnect, h, h0]

/-- C4 witness: the proactive-reconnect callback evaluated for a concrete
connection. -/
theorem C4_proactive_reconnect_graceful_witness :
    RECONNECT_INTERVAL < RAILWAY_CONNECTION_LIMIT_SECONDS * 1000 ∧
    ClientEffect.closeEventSource ∈
      proactiveReconnectFire "Harvard" "session_1" ["A"] :=
  ⟨(C4_proactive_reconnect_graceful "Harvard" "session_1" ["A"] (by decide)).2.1,
   (C4_proactive_reconnect_graceful "Harvard" "session_1" ["A"] (by decide)).2.2.2.1⟩

/-- C5 counterexample.  The claim says fallback happens exactly when
`reconnectAttempts` reaches or exceeds `MAX_RECONNECT_ATTEMPTS` (5).  But
`eventSource.onerror` grants two extra attempts when the last activity was
under 5 seconds ago: at `reconnectAttempts = 5` with recent activity it
increments to 6 and neither closes the connection nor falls back. -/
theorem C5_effective_max_exceeds_configured_max :
    sseOnError "Harvard" ⟨5, 1000⟩ 2000 = (⟨6, 1000⟩, []) ∧
    MAX_RECONNECT_ATTEMPTS ≤ 5 := by
  refine ⟨by decide, by decide⟩

/-- C5 amended.  On an inactivity expiry the activity checker increments the
counter and only warns while below `MAX_RECONNECT_ATTEMPTS`, and at or above
it closes the connection and falls back (without incrementing).  On a
transport error the same discipline holds with the effective ceiling
`effectiveMaxRetries` — `MAX_RECONNECT_ATTEMPTS + 2` when the last activity
was under 5 seconds ago, `MAX_RECONNECT_ATTEMPTS` otherwise. -/
theorem C5_reconnect_fallback_discipline (inst : String) (st : ConnState)
    (now : Nat) :
    ((now - st.lastActivityTime > HEARTBEAT_TIMEOUT ∧
        st.reconnectAttempts < MAX_RECONNECT_ATTEMPTS) →
       (activityCheckTick inst st now).1.reconnectAttempts =
           st.reconnectAttempts + 1 ∧
       ClientEffect.onFallback inst ∉ (activityCheckTick inst st now).2 ∧
       ClientEffect.closeEventSource ∉ (activityCheckTick inst st now).2) ∧
    ((now - st.lastActivityTime > HEARTBEAT_TIMEOUT ∧
        MAX_RECONNECT_ATTEMPTS ≤ st.reconnectAttempts) →
       (activityCheckTick inst st now).1 = st ∧
       ClientEffect.onFallback inst ∈ (activityCheckTick inst st now).2 ∧
       ClientEffect.closeEventSource ∈ (activityCheckTick inst st now).2) ∧
    (st.reconnectAttempts < effectiveMaxRetries st now →
       (sseOnError inst st now).1.reconnectAttempts = st.reconnectAttempts + 1 ∧
       ClientEffect.onFallback inst ∉ (sseOnError inst st now).2 ∧
       ClientEffect.closeEventSource ∉ (sseOnError inst st now).2) ∧
    (effectiveMaxRetries st now ≤ st.reconnectAttempts →
       (sseOnError inst st now).1 = st ∧
       ClientEffect.onFallback inst ∈ (sseOnError inst st now).2 ∧
       ClientEffect.closeEventSource ∈ (sseOnError inst st now).2) := by
  refine ⟨?_, ?_, ?_, ?_⟩
  · rintro ⟨h1, h2⟩
    simp [activityCheckTick, h1, h2]
  · rintro ⟨h1, h2⟩
    simp [activityCheckTick, h1, Nat.not_lt.mpr h2]
  · intro h
    refine ⟨by simp [sseOnError, h], ?_, ?_⟩ <;>
      · simp only [sseOnError, if_pos h]
        split <;> simp
  · intro h
    refine ⟨?_, ?_, ?_⟩ <;> simp [sseOnError, Nat.not_lt.mpr h]

/-- C5 witness: the discipline evaluated at a connection that has exhausted
the effective retry ceiling with stale activity. -/
theorem C5_reconnect_fallback_discipline_witness :
    ClientEffect.onFallback "Harvard" ∈ (sseOnError "Harvard" ⟨5, 0⟩ 99000).2 ∧
    (activityCheckTick "Harvard" ⟨0, 0⟩ 70000).1.reconnectAttempts = 0 + 1 :=
  ⟨((C5_reconnect_fallback_discipline "Harvard" ⟨5, 0⟩ 99000).2.2.2
      (by decide)).2.1,
   ((C5_reconnect_fallback_discipline "Harvard" ⟨0, 0⟩ 70000).1
      (by exact ⟨by decide, by decide⟩)).1⟩

theorem componentApplyTotal_results (st : ComponentState) (total : Option Nat) :
    (componentApplyTotal st total).results = st.results := by
  rcases total with _ | t
  · rfl
  · show (if t ≠ 0 then { st with totalItems := t } else st).results = st.results
    split <;> rfl

theorem componentApplyTotal_processed (st : ComponentState)
    (total : Option Nat) :
    (componentApplyTotal st total).processed = st.processed := by
  rcases total with _ | t
  · rfl
  · show (if t ≠ 0 then { st with totalItems := t } else st).processed = st.processed
    split <;> rfl

theorem componentMergeNew_no_duplicate (st : ComponentState)
    (rs : List SearchResult) (r : SearchResult)
    (hr : r ∈ (componentMergeNew st rs).results) :
    r ∈ st.results ∨ st.processed.contains r.risk_item = false := by
  simp only [componentMergeNew] at hr
  split at hr
  · rcases List.mem_append.mp hr with hl | hf
    · exact Or.inl hl
    · have := (List.mem_filter.mp hf).2
      right
      simpa using this
  · exact Or.inl hr

/-- A helper fact for the count-only heartbeat reconciliation: when the
local processed set is strictly smaller than the server-reported progress,
the reconciliation ends with the progress state equal to the server
progress. -/
theorem hookHeartbeatCountOnly_progress (st : HookState) (p t ts : Nat)
    (h : st.processed.length < p) :
    (hookHeartbeatCountOnly st p t ts).progress = p := by
  have hle : (fillVirtual st.processed p ts).length ≤ p :=
    fillVirtual_length_le st.processed p ts (le_of_lt h)
  simp only [hookHeartbeatCountOnly]
  split_ifs <;> simp_all <;> omega

/-- C2 counterexample.  Two consecutive count-only heartbeats — server
progress 10 then server progress 2 — drive the displayed progress from 10
down to 2: the handler writes the server value into the progress state
before any reconciliation, and the branch for a local count larger than the
server count only logs, so the displayed progress regresses across
heartbeats. -/
theorem C2_displayed_progress_regresses :
    ((handleSSEMessage emptyHookState
        { type := "heartbeat", progress := some 10, total := some 50 } 1).1).progress
      = 10 ∧
    ((handleSSEMessage
        (handleSSEMessage emptyHookState
          { type := "heartbeat", progress := some 10, total := some 50 } 1).1
        { type := "heartbeat", progress := some 2, total := some 50 } 2).1).progress
      = 2 := by
  refine ⟨by decide, by decide⟩

/-- C2 amended.  When a heartbeat reports a progress count without item
identifiers and the local processed-set size is smaller than the
server-reported progress, the manager reconciles to the larger of the two
(the server progress), padding the processed set with synthetic ids.  The
original claim's further consequence — that the displayed progress never
decreases across heartbeats — is false: a later count-only heartbeat whose
progress is below the local count overwrites the displayed progress with
the smaller server value (see the counterexample). -/
theorem C2_count_only_heartbeat_trusts_larger (st : HookState) (p t ts : Nat)
    (h : st.processed.length < p) :
    (handleSSEMessage st
        { type := "heartbeat", progress := some p, total := some t } ts).1.progress
      = max st.processed.length p := by
  have hmain :
      (hookHeartbeatCountOnly { st with progress := p, totalItems := t } p t
        ts).progress = p :=
    hookHeartbeatCountOnly_progress _ p t ts (by simpa using h)
  have hmax : max st.processed.length p = p := by omega
  simp [handleSSEMessage, hookHeartbeat, hmain, hmax]

/-- C2 amended witness: a count-only heartbeat reporting progress 3 against
an empty local processed set ends with displayed progress
`max 0 3 = 3`. -/
theorem C2_count_only_heartbeat_trusts_larger_witness :
    (handleSSEMessage emptyHookState
        { type := "heartbeat", progress := some 3, total := some 7 } 4).1.progress
      = max ([] : List String).length 3 :=
  C2_count_only_heartbeat_trusts_larger emptyHookState 3 7 4 (by decide)

/-- C6 counterexample.  A fallback response whose `results` contain an item
already in the hook's processed set is appended again by the hook's success
callback: the streaming path's duplicate-suppression rule is not applied on
the hook's fallback merge. -/
theorem C6_fallback_merge_duplicates :
    (hookFallbackOnSuccess
        { emptyHookState with
            processed := ["Univ X"]
            results := [⟨"Univ X", "Direct", "s"⟩]
            isFallbackInProgress := true }
        [⟨"Univ X", "Direct", "s"⟩] 1 3).results =
      [⟨"Univ X", "Direct", "s"⟩, ⟨"Univ X", "Direct", "s"⟩] ∧
    (["Univ X"].contains "Univ X") = true := by
  refine ⟨by decide, by decide⟩

/-- C6 amended.  Only the legacy component's fallback merge applies the
idempotent duplicate-suppression rule: every result it appends was either
already in the result list or not yet processed.  The hook's fallback
success callback appends the returned batch unconditionally (it only adds
the ids to the processed set afterwards), and both implementations finish
the investigation after the single poll — searching is set to false and no
further poll is issued — rather than re-polling while items remain. -/
theorem C6_fallback_merge_discipline (st : ComponentState)
    (total : Option Nat) (rs : List SearchResult) (r : SearchResult)
    (hst : HookState) (nrs : List SearchResult) (p t : Nat)
    (hr : r ∈ (componentFallbackMerge st total (some rs)).results) :
    (r ∈ st.results ∨ st.processed.contains r.risk_item = false) ∧
    (hookFallbackOnSuccess hst nrs p t).isSearching = false ∧
    (hookFallbackOnSuccess hst nrs p t).isFallbackInProgress = false := by
  refine ⟨?_, by simp [hookFallbackOnSuccess], by simp [hookFallbackOnSuccess]⟩
  unfold componentFallbackMerge at hr
  have h1 := componentMergeNew_no_duplicate (componentApplyTotal st total) rs r hr
  rw [componentApplyTotal_results, componentApplyTotal_processed] at h1
  exact h1

/-- C6 amended witness: the component merge evaluated on a response carrying
one already-processed and one new item; the new item ends up in the merged
results and was indeed unprocessed, and the hook finishes after the poll. -/
theorem C6_fallback_merge_discipline_witness :
    ((⟨"New U", "Indirect", "y"⟩ : SearchResult) ∈
        ([⟨"Univ X", "Direct", "s"⟩] : List SearchResult) ∨
      (["Univ X"].contains "New U") = false) ∧
    (hookFallbackOnSuccess emptyHookState [] 0 0).isSearching = false := by
  have h := C6_fallback_merge_discipline
    { results := [⟨"Univ X", "Direct", "s"⟩]
      progress := 1
      totalItems := 3
      processed := ["Univ X"]
      isSearching := true
      isFallbackInProgress := true }
    (some 3) [⟨"Univ X", "Direct", "s"⟩, ⟨"New U", "Indirect", "y"⟩]
    ⟨"New U", "Indirect", "y"⟩ emptyHookState [] 0 0 (by decide)
  exact ⟨h.1, h.2.1⟩

/-- C3.  A planned-reconnect warning — the stateful payload built by the
connection's `reconnect` routine, carrying `reconnect = true`, the session
id and the target institution — makes the hook tear down the current
connection (close the EventSource and run the cleanup, which clears all
timers) and then, via the scheduled task, re-register and re-open the
stream with the same session id and with the size of the current local
processed set as the progress resume hint.  Results, progress, the
processed set, the error state and the searching flag are all left
untouched: this is a planned reconnect, not an error path. -/
theorem C3_reconnect_warning_resumes_session (st : HookState) (a : String)
    (pr : List String) (ts : Nat) (ha : jsTrim a ≠ "")
    (hsid : st.sessionId ≠ "") :
    (reconnectWarningStep st (reconnectWarningMessage a st.sessionId pr)
        (RegisterResult.ok (some st.sessionId)) true ts).1.results = st.results ∧
    (reconnectWarningStep st (reconnectWarningMessage a st.sessionId pr)
        (RegisterResult.ok (some st.sessionId)) true ts).1.processed = st.processed ∧
    (reconnectWarningStep st (reconnectWarningMessage a st.sessionId pr)
        (RegisterResult.ok (some st.sessionId)) true ts).1.progress = st.progress ∧
    (reconnectWarningStep st (reconnectWarningMessage a st.sessionId pr)
        (RegisterResult.ok (some st.sessionId)) true ts).1.sessionId = st.sessionId ∧
    (reconnectWarningStep st (reconnectWarningMessage a st.sessionId pr)
        (RegisterResult.ok (some st.sessionId)) true ts).1.error = st.error ∧
    (reconnectWarningStep st (reconnectWarningMessage a st.sessionId pr)
        (RegisterResult.ok (some st.sessionId)) true ts).1.isSearching = st.isSearching ∧
    (reconnectWarningStep st (reconnectWarningMessage a st.sessionId pr)
        (RegisterResult.ok (some st.sessionId)) true ts).2 =
      [ClientEffect.closeEventSource, ClientEffect.runCleanup,
       ClientEffect.scheduleReconnectStart,
       ClientEffect.registerSessionRequest a st.sessionId st.processed,
       ClientEffect.connectSSE a st.sessionId st.processed
         st.processed.length] := by
  have ha0 : a ≠ "" := ne_empty_of_jsTrim_ne a ha
  refine ⟨?_, ?_, ?_, ?_, ?_, ?_, ?_⟩ <;>
    simp [reconnectWarningStep, handleSSEMessage, hookReconnectWarning,
      reconnectWarningMessage, scheduledReconnectTask, startDeepSearch,
      ha, ha0, hsid]

/-- C3 witness: the planned reconnect evaluated on a mid-search state with
one accumulated result. -/
theorem C3_reconnect_warning_resumes_session_witness :
    (reconnectWarningStep
        { emptyHookState with
            institutionA := "Harvard"
            institutionARef := "Harvard"
            isSearching := true
            sessionId := "session_7"
            results := [⟨"A1", "Direct", "x"⟩]
            processed := ["A1"]
            progress := 1 }
        (reconnectWarningMessage "Harvard" "session_7" ["A1"])
        (RegisterResult.ok (some "session_7")) true 9).1.processed = ["A1"] ∧
    (reconnectWarningStep
        { emptyHookState with
            institutionA := "Harvard"
            institutionARef := "Harvard"
            isSearching := true
            sessionId := "session_7"
            results := [⟨"A1", "Direct", "x"⟩]
            processed := ["A1"]
            progress := 1 }
        (reconnectWarningMessage "Harvard" "session_7" ["A1"])
        (RegisterResult.ok (some "session_7")) true 9).1.sessionId = "session_7" := by
  have h := C3_reconnect_warning_resumes_session
    { emptyHookState with
        institutionA := "Harvard"
        institutionARef := "Harvard"
        isSearching := true
        sessionId := "session_7"
        results := [⟨"A1", "Direct", "x"⟩]
        processed := ["A1"]
        progress := 1 }
    "Harvard" ["A1"] 9 (by decide) (by decide)
  exact ⟨h.2.1, h.2.2.2.1⟩

/-- C7 counterexample.  A failed resume-time session registration is not
fatal: `registerSession` swallows a non-ok response and returns the original
(stale) session id, and the reconnect path of `startDeepSearch` proceeds
after a failed registration — it opens the new stream with the same session
id, leaves the error state empty and keeps searching, instead of surfacing
a must-restart failure. -/
theorem C7_stale_session_resume_continues :
    registerSession "session_1" (HttpOutcome.response false none) = "session_1" ∧
    (startDeepSearch
        { emptyHookState with
            institutionA := "Harvard"
            institutionARef := "Harvard"
            isSearching := true
            sessionId := "session_1" }
        true RegisterResult.failed true 0).1.sessionId = "session_1" ∧
    (startDeepSearch
        { emptyHookState with
            institutionA := "Harvard"
            institutionARef := "Harvard"
            isSearching := true
            sessionId := "session_1" }
        true RegisterResult.failed true 0).1.error = "" ∧
    (startDeepSearch
        { emptyHookState with
            institutionA := "Harvard"
            institutionARef := "Harvard"
            isSearching := true
            sessionId := "session_1" }
        true RegisterResult.failed true 0).2.contains
      (ClientEffect.connectSSE "Harvard" "session_1" [] 0) = true := by
  refine ⟨rfl, by decide, by decide, by decide⟩

/-- C7 amended.  When resume-time session registration fails (network error
or non-2xx response), the failure is swallowed rather than treated as
fatal: `registerSession` returns the original session id, and the reconnect
path of `startDeepSearch` logs, keeps the same session id, passes only the
processed-count resume hint, and still opens the new stream connection —
the error state and searching flag are unchanged and nothing resembling a
must-restart error is surfaced. -/
theorem C7_registration_failure_swallowed (sid : String) (o : HttpOutcome)
    (st : HookState) (ts : Nat)
    (ho : o = HttpOutcome.netError ∨ ∃ s, o = HttpOutcome.response false s)
    (ha : jsTrim st.institutionARef ≠ "") :
    registerSession sid o = sid ∧
    (startDeepSearch st true RegisterResult.failed true ts).1.error = st.error ∧
    (startDeepSearch st true RegisterResult.failed true ts).1.sessionId =
      st.sessionId ∧
    (startDeepSearch st true RegisterResult.failed true ts).1.isSearching =
      st.isSearching ∧
    ClientEffect.connectSSE st.institutionARef st.sessionId st.processed
        st.processed.length
      ∈ (startDeepSearch st true RegisterResult.failed true ts).2 := by
  have ha0 : st.institutionARef ≠ "" := ne_empty_of_jsTrim_ne _ ha
  refine ⟨?_, ?_, ?_, ?_, ?_⟩
  · rcases ho with h | ⟨s, h⟩ <;> subst h <;> rfl
  all_goals
    simp [startDeepSearch, ha, ha0]

/-- C7 amended witness: registration failure evaluated on a concrete
resuming client. -/
theorem C7_registration_failure_swallowed_witness :
    registerSession "session_9" HttpOutcome.netError = "session_9" ∧
    (startDeepSearch
        { emptyHookState with
            institutionA := "MIT"
            institutionARef := "MIT"
            isSearching := true
            sessionId := "session_9"
            processed := ["B2"] }
        true RegisterResult.failed true 3).1.sessionId = "session_9" := by
  have h := C7_registration_failure_swallowed "session_9" HttpOutcome.netError
    { emptyHookState with
        institutionA := "MIT"
        institutionARef := "MIT"
        isSearching := true
        sessionId := "session_9"
        processed := ["B2"] }
    3 (Or.inl rfl) (by decide)
  exact ⟨h.1, h.2.2.1⟩

end DeepDriver
